import Mathlib

/-!
Shallow embedding of the Vortexbot DCA trading engine (src/app.py).

Money and prices are modelled as rationals (the Python code uses floats;
the algebraic relations claimed by the spec are about the algorithm's
arithmetic, which we carry out exactly over ℚ).  Python dicts with
`.get(key, default)` access are modelled as structures of `Option` fields
together with getter functions that apply the same per-read defaults that
`calculate_dca_logic` applies.  Timestamps are opaque strings supplied by
the caller.
-/

namespace Vortex

/-- Bot lifecycle status, `bot['status']` in app.py. -/
inductive BotStatus where
  | running
  | completed
  | stopped_loss
deriving DecidableEq

/-- `dca_config` dict: every field may be absent; `calculate_dca_logic`
reads each with a default via `.get`. -/
structure DCAConfig where
  base_order? : Option ℚ := none
  safety_order? : Option ℚ := none
  max_safety_orders? : Option ℕ := none
  volume_scale? : Option ℚ := none
  step_scale? : Option ℚ := none
  price_deviation? : Option ℚ := none
  take_profit? : Option ℚ := none
  stop_action? : Option String := none
  stop_loss_enabled? : Option Bool := none
  stop_loss? : Option ℚ := none
  loop_enabled? : Option Bool := none
deriving DecidableEq

/-- `dca_config.get('base_order', 20.0)` -/
def DCAConfig.base_order (c : DCAConfig) : ℚ := c.base_order?.getD 20

/-- `dca_config.get('safety_order', 0)` -/
def DCAConfig.safety_order (c : DCAConfig) : ℚ := c.safety_order?.getD 0

/-- `dca_config.get('max_safety_orders', 15)` -/
def DCAConfig.max_safety_orders (c : DCAConfig) : ℕ := c.max_safety_orders?.getD 15

/-- `dca_config.get('volume_scale', 1.5)` -/
def DCAConfig.volume_scale (c : DCAConfig) : ℚ := c.volume_scale?.getD (3/2)

/-- `dca_config.get('step_scale', 1.5)` -/
def DCAConfig.step_scale (c : DCAConfig) : ℚ := c.step_scale?.getD (3/2)

/-- `dca_config.get('price_deviation', 1.5)` -/
def DCAConfig.price_deviation (c : DCAConfig) : ℚ := c.price_deviation?.getD (3/2)

/-- `dca_config.get('take_profit', 1.5)` -/
def DCAConfig.take_profit (c : DCAConfig) : ℚ := c.take_profit?.getD (3/2)

/-- `dca_config.get('stop_loss_enabled')` (absent key is falsy) -/
def DCAConfig.stop_loss_enabled (c : DCAConfig) : Bool := c.stop_loss_enabled?.getD false

/-- `dca_config.get('stop_loss', 5.0)` -/
def DCAConfig.stop_loss (c : DCAConfig) : ℚ := c.stop_loss?.getD 5

/-- `dca_config.get('loop_enabled', False)` -/
def DCAConfig.loop_enabled (c : DCAConfig) : Bool := c.loop_enabled?.getD false

/-- One bot record, as stored in `user_data['bots'][symbol]`. -/
structure Bot where
  symbol : String
  status : BotStatus
  entry_price : ℚ
  current_price : ℚ
  investment : ℚ
  pnl : ℚ
  dca_config : DCAConfig
  safety_orders_filled : ℕ
  start_time : String
deriving DecidableEq

/-- `user_data['financials']`. -/
structure Financials where
  total_balance : ℚ
  reserved_capital : ℚ
  net_pnl : ℚ
deriving DecidableEq

/-- Event kinds appearing in history entries. -/
inductive EventType where
  | dcaBuy (n : ℕ)
  | takeProfit
  | loopRestart
  | stopLoss
  | panicSell
deriving DecidableEq

/-- In-memory workspace history entry (`user_data['history']` items):
keys time, symbol, type, price, pnl.  The `pnl` percent is stored as the
rational value that the Python code formats into the `"...%"` string. -/
structure MemEntry where
  time : String
  symbol : String
  etype : EventType
  price : ℚ
  pnl : ℚ
deriving DecidableEq

/-- Durable trade-history entry passed to `save_trade_history`:
keys symbol, timestamp, event, pnl_percent, pnl_usd. -/
structure DurEntry where
  symbol : String
  timestamp : String
  event : EventType
  pnl_percent : ℚ
  pnl_usd : ℚ
deriving DecidableEq

/-- The state mutated by one engine invocation: the bot itself, the
workspace financials, the in-memory history list (newest first), plus the
list of durable entries emitted to `save_trade_history` (in emission
order). -/
structure EngineState where
  bot : Bot
  fin : Financials
  history : List MemEntry
  emitted : List DurEntry
deriving DecidableEq

/-- `pnl_percent = ((current_price - entry_price) / entry_price) * 100` -/
def pnlPercent (entry_price current_price : ℚ) : ℚ :=
  (current_price - entry_price) / entry_price * 100

/-- Floor of a rational, computed from its reduced numerator and positive
denominator by flooring integer division. -/
def ratFloor (q : ℚ) : ℤ := Int.fdiv q.num q.den

/-- Python `round(x, 2)` (round half to even on the scaled value),
used only for the displayed `bot['pnl']` field. -/
def round2 (x : ℚ) : ℚ :=
  let y := x * 100
  let f : ℤ := ratFloor y
  let r := y - (f : ℚ)
  let n : ℤ :=
    if r < 1/2 then f
    else if 1/2 < r then f + 1
    else if f % 2 = 0 then f else f + 1
  (n : ℚ) / 100

/-- `user_data['history'].insert(0, e)` followed by
`if len(user_data['history']) > 50: user_data['history'].pop()` —
prepend, then drop the last element if the length now exceeds 50. -/
def trimHistory (h : List MemEntry) : List MemEntry :=
  if h.length > 50 then h.dropLast else h

/-- Step 2 of `calculate_dca_logic` (safety-order logic), app.py lines
190–230.  `pnl_percent` is the value computed in step 1 from the
pre-invocation entry price; `st.bot.entry_price` is still that original
entry price when this step reads it. -/
def safetyStep (now : String) (current_price pnl_percent : ℚ)
    (st : EngineState) : EngineState :=
  let bot := st.bot
  let cfg := bot.dca_config
  let so_count := bot.safety_orders_filled
  let required_drop := cfg.price_deviation * cfg.step_scale ^ so_count
  if so_count < cfg.max_safety_orders ∧ pnl_percent < -required_drop then
    let so_volume := cfg.safety_order * cfg.volume_scale ^ so_count
    let investment1 := bot.investment + so_volume
    let current_coins := (investment1 - so_volume) / bot.entry_price
    let new_coins := so_volume / current_price
    let bot1 : Bot :=
      { bot with
        safety_orders_filled := so_count + 1
        investment := investment1
        entry_price := investment1 / (current_coins + new_coins) }
    { st with
      bot := bot1
      fin := { st.fin with
        reserved_capital := st.fin.reserved_capital + so_volume }
      history := trimHistory
        (⟨now, bot.symbol, .dcaBuy (so_count + 1), current_price, pnl_percent⟩
          :: st.history)
      emitted := st.emitted ++
        [⟨bot.symbol, now, .dcaBuy (so_count + 1), pnl_percent, 0⟩] }
  else st

/-- Step 3 of `calculate_dca_logic` (take-profit and loop logic), app.py
lines 232–283.  Note: the Take Profit and Loop Restart history inserts
have no trim in the source. -/
def takeProfitStep (now : String) (current_price pnl_percent : ℚ)
    (st : EngineState) : EngineState :=
  let bot := st.bot
  let cfg := bot.dca_config
  if pnl_percent ≥ cfg.take_profit then
    let profit_amount := bot.investment * (pnl_percent / 100)
    let fin1 : Financials :=
      { total_balance := st.fin.total_balance + profit_amount
        net_pnl := st.fin.net_pnl + profit_amount
        reserved_capital := st.fin.reserved_capital - bot.investment }
    let hist1 : List MemEntry :=
      ⟨now, bot.symbol, .takeProfit, current_price, pnl_percent⟩ :: st.history
    let emitted1 : List DurEntry :=
      st.emitted ++ [⟨bot.symbol, now, .takeProfit, pnl_percent, profit_amount⟩]
    if cfg.loop_enabled then
      let bot1 : Bot :=
        { bot with
          status := .running
          investment := cfg.base_order
          entry_price := current_price
          safety_orders_filled := 0
          start_time := now }
      { bot := bot1
        fin := { fin1 with
          reserved_capital := fin1.reserved_capital + bot1.investment }
        history :=
          ⟨now, bot.symbol, .loopRestart, current_price, 0⟩ :: hist1
        emitted := emitted1 }
    else
      { st with
        bot := { bot with status := .completed }
        fin := fin1
        history := hist1
        emitted := emitted1 }
  else st

/-- Step 4 of `calculate_dca_logic` (stop-loss logic), app.py lines
285–310.  The source checks only `stop_loss_enabled` and the pnl
threshold; it does not test the bot's status. -/
def stopLossStep (now : String) (current_price pnl_percent : ℚ)
    (st : EngineState) : EngineState :=
  let bot := st.bot
  let cfg := bot.dca_config
  if cfg.stop_loss_enabled = true ∧ pnl_percent ≤ -cfg.stop_loss then
    let loss_amount := bot.investment * (pnl_percent / 100)
    { bot := { bot with status := .stopped_loss }
      fin :=
        { total_balance := st.fin.total_balance + loss_amount
          net_pnl := st.fin.net_pnl + loss_amount
          reserved_capital := st.fin.reserved_capital - bot.investment }
      history :=
        ⟨now, bot.symbol, .stopLoss, current_price, pnl_percent⟩ :: st.history
      emitted := st.emitted ++
        [⟨bot.symbol, now, .stopLoss, pnl_percent, loss_amount⟩] }
  else st

/-- `calculate_dca_logic(user_email, bot, current_price)` (app.py lines
175–313): step 1 computes `pnl_percent` once from the entry price at
function entry and stores the rounded pnl and the current price on the
bot; steps 2–4 then run in order, all reusing that same step-1
`pnl_percent`. -/
def calculate_dca_logic (now : String) (current_price : ℚ)
    (st : EngineState) : EngineState :=
  let pnl_percent := pnlPercent st.bot.entry_price current_price
  let st1 : EngineState :=
    { st with bot :=
      { st.bot with pnl := round2 pnl_percent, current_price := current_price } }
  stopLossStep now current_price pnl_percent
    (takeProfitStep now current_price pnl_percent
      (safetyStep now current_price pnl_percent st1))

/-- A sequence of engine invocations on the same bot (as the scheduler's
ticks produce), each given a timestamp and a current price. -/
def runTicks (ticks : List (String × ℚ)) (st : EngineState) : EngineState :=
  ticks.foldl (fun s t => calculate_dca_logic t.1 t.2 s) st

/-!  Persistence: the durable trade-history file (`save_trade_history`,
app.py lines 129–153).  The function appends the entry to the current
file contents and trims to the last 1000 entries (`history[-1000:]`)
whenever the length exceeds 1000. -/

/-- One `save_trade_history` call on the current file contents. -/
def save_trade_history (history : List DurEntry) (entry : DurEntry) :
    List DurEntry :=
  let h := history ++ [entry]
  if h.length > 1000 then h.drop (h.length - 1000) else h

/-!  The workspace and the two bot-creation endpoints
(`start_strategy`, app.py lines 581–649, and `create_bot`, lines
669–725).  The provider fetch (`exchange.fetch_ticker`) is modelled as
an `Option ℚ` argument (`none` = the fetch raised) and the market cache
as a partial map from symbol to last price. -/

/-- One workspace (`user_data` of the global shared workspace): the bot
dict (modelled as an association list keyed by symbol), the financials
and the in-memory history. -/
structure Workspace where
  bots : List (String × Bot)
  fin : Financials
  history : List MemEntry
deriving DecidableEq

/-- Python dict assignment `bots[symbol] = new_bot`. -/
def setBot (symbol : String) (b : Bot) (bots : List (String × Bot)) :
    List (String × Bot) :=
  (symbol, b) :: bots.filter (fun p => p.1 != symbol)

/-- `symbol in bots and bots[symbol]['status'] == 'running'`. -/
def runningAt (bots : List (String × Bot)) (symbol : String) : Bool :=
  match bots.lookup symbol with
  | some b => b.status == BotStatus.running
  | none => false

/-- Outcome of an HTTP endpoint: a success or a structured error with a
human-readable message, together with the HTTP status code. -/
inductive ApiResult where
  | ok (message : Option String) (code : ℕ)
  | err (message : String) (code : ℕ)
deriving DecidableEq

/-- Body of a `/api/start_strategy` request: `data.get('symbol')` and
`data.get('amount', 20.0)`. -/
structure StartReq where
  symbol? : Option String
  amount? : Option ℚ
deriving DecidableEq

/-- The fixed DCA config that `start_strategy` installs (app.py lines
617–628), with `base_order` taken from the requested amount. -/
def startConfig (amount : ℚ) : DCAConfig :=
  { base_order? := some amount
    safety_order? := some 40
    max_safety_orders? := some 15
    volume_scale? := some (21/20)
    step_scale? := some 1
    price_deviation? := some 2
    take_profit? := some (3/2)
    stop_action? := some "close"
    stop_loss_enabled? := some false
    loop_enabled? := some true }

/-- `/api/start_strategy` (app.py lines 581–649).  `fetch` is the
provider result for the symbol (`none` = the fetch raised), `cache` the
market cache keyed by dash-form symbol.  On any error the workspace is
returned unchanged. -/
def start_strategy (now : String) (fetch : Option ℚ)
    (cache : String → Option ℚ) (ws : Workspace) (req : StartReq) :
    ApiResult × Workspace :=
  match req.symbol? with
  | none => (.err "No valid symbol selected. Please select a pair first." 400, ws)
  | some symbol =>
    if symbol = "" ∨ symbol = "---" then
      (.err "No valid symbol selected. Please select a pair first." 400, ws)
    else if runningAt ws.bots symbol then
      (.err ("Bot for " ++ symbol ++ " is already active") 400, ws)
    else
      let price : ℚ :=
        match fetch with
        | some p => p
        | none =>
          match cache symbol with
          | some p => p
          | none => 50000
      let amount := req.amount?.getD 20
      let bot : Bot :=
        { symbol := symbol
          status := .running
          entry_price := price
          current_price := price
          investment := amount
          pnl := 0
          dca_config := startConfig amount
          safety_orders_filled := 0
          start_time := now }
      (.ok (some "Vortex Strategy Activated") 200,
        { ws with
          bots := setBot symbol bot ws.bots
          fin := { ws.fin with
            reserved_capital := ws.fin.reserved_capital + amount } })

/-- `symbol.upper()` followed by `symbol.replace('/', '-')` (upper-casing
leaves `'/'` unchanged, so the two passes fuse into one character map). -/
def normalizeSymbol (s : String) : String :=
  ⟨s.data.map (fun c => if c.toUpper = '/' then '-' else c.toUpper)⟩

/-- Body of a `/api/create_bot` request: `data.get('symbol', '')`,
`data.get('investment', 100)` and `data.get('dca_config', {})`. -/
structure CreateReq where
  symbol? : Option String
  investment? : Option ℚ
  dca_config : DCAConfig
deriving DecidableEq

/-- The `dca_config.setdefault(...)` block of `create_bot` (app.py lines
684–691): each listed key is filled in only when absent. -/
def applyCreateDefaults (base_order : ℚ) (c : DCAConfig) : DCAConfig :=
  { c with
    base_order? := some (c.base_order?.getD base_order)
    safety_order? := some (c.safety_order?.getD 40)
    max_safety_orders? := some (c.max_safety_orders?.getD 15)
    volume_scale? := some (c.volume_scale?.getD (21/20))
    step_scale? := some (c.step_scale?.getD 1)
    price_deviation? := some (c.price_deviation?.getD 2)
    take_profit? := some (c.take_profit?.getD (3/2)) }

/-- `/api/create_bot` (app.py lines 669–725). -/
def create_bot (now : String) (fetch : Option ℚ)
    (cache : String → Option ℚ) (ws : Workspace) (req : CreateReq) :
    ApiResult × Workspace :=
  let symbol := normalizeSymbol (req.symbol?.getD "")
  let base_order := req.investment?.getD 100
  let cfg := applyCreateDefaults base_order req.dca_config
  if runningAt ws.bots symbol then
    (.err "Bot already running" 400, ws)
  else
    match fetch.orElse (fun _ => cache symbol) with
    | none => (.err "Invalid Pair (Fetch Failed)" 400, ws)
    | some price =>
      let bot : Bot :=
        { symbol := symbol
          status := .running
          entry_price := price
          current_price := price
          investment := base_order
          pnl := 0
          dca_config := cfg
          safety_orders_filled := 0
          start_time := now }
      (.ok none 200,
        { ws with
          bots := setBot symbol bot ws.bots
          fin := { ws.fin with
            reserved_capital := ws.fin.reserved_capital + base_order } })

/-!  Concrete scenarios used by witnesses and counterexamples. -/

/-- Scenario of spec §8: `price_deviation = 2`, `step_scale = 1`,
`safety_order = 40`, `volume_scale = 1`, `max_safety_orders = 1`. -/
def cfgA : DCAConfig :=
  { price_deviation? := some 2, step_scale? := some 1,
    safety_order? := some 40, volume_scale? := some 1,
    max_safety_orders? := some 1 }

/-- A bot opened at price 100 with investment 20 under `cfgA`. -/
def botA : Bot :=
  { symbol := "BTC-USDT", status := .running, entry_price := 100,
    current_price := 100, investment := 20, pnl := 0,
    dca_config := cfgA, safety_orders_filled := 0, start_time := "t0" }

/-- Engine state holding `botA` in a fresh workspace. -/
def stA : EngineState :=
  { bot := botA, fin := ⟨10000, 20, 0⟩, history := [], emitted := [] }

end Vortex

/-!  ## Theorems -/

namespace Vortex

/-- Claim C1: a DCA engine invocation on a running bot with positive
entry price whose step-1 `pnl_percent` is below
`-(price_deviation * step_scale ^ k)` while `k < max_safety_orders`
(`k = safety_orders_filled`) makes the safety-order stage of
`calculate_dca_logic` increment `safety_orders_filled` to `k + 1`, add
`so_volume = safety_order * volume_scale ^ k` both to the bot's
investment and to the workspace's reserved capital, and set the new
entry price to the investment-weighted average
`investment_new / ((investment_new - so_volume) / entry_price_old
+ so_volume / current_price)` — total invested capital divided by total
coins held. -/
theorem safety_order_fill_correct (now : String) (price pnl : ℚ)
    (st : EngineState)
    (hrun : st.bot.status = BotStatus.running)
    (hpos : 0 < st.bot.entry_price)
    (hpnl : pnl = pnlPercent st.bot.entry_price price)
    (hk : st.bot.safety_orders_filled < st.bot.dca_config.max_safety_orders)
    (hdrop : pnl < -(st.bot.dca_config.price_deviation *
        st.bot.dca_config.step_scale ^ st.bot.safety_orders_filled)) :
    (safetyStep now price pnl st).bot.safety_orders_filled
        = st.bot.safety_orders_filled + 1 ∧
    (safetyStep now price pnl st).bot.investment
        = st.bot.investment + st.bot.dca_config.safety_order *
            st.bot.dca_config.volume_scale ^ st.bot.safety_orders_filled ∧
    (safetyStep now price pnl st).fin.reserved_capital
        = st.fin.reserved_capital + st.bot.dca_config.safety_order *
            st.bot.dca_config.volume_scale ^ st.bot.safety_orders_filled ∧
    (safetyStep now price pnl st).bot.entry_price
        = (st.bot.investment + st.bot.dca_config.safety_order *
              st.bot.dca_config.volume_scale ^ st.bot.safety_orders_filled) /
            (((st.bot.investment + st.bot.dca_config.safety_order *
                  st.bot.dca_config.volume_scale ^ st.bot.safety_orders_filled) -
                st.bot.dca_config.safety_order *
                  st.bot.dca_config.volume_scale ^ st.bot.safety_orders_filled) /
                st.bot.entry_price +
              st.bot.dca_config.safety_order *
                st.bot.dca_config.volume_scale ^ st.bot.safety_orders_filled /
                price) := by
  simp [safetyStep, hk, hdrop]

/-- Claim C1 witness: the spec §8 scenario — price drops from 100 to 97
(−3%), one safety order of 40 fires. -/
theorem safety_order_fill_correct_witness :
    stA.bot.status = BotStatus.running ∧
    (0 : ℚ) < stA.bot.entry_price ∧
    (-3 : ℚ) = pnlPercent stA.bot.entry_price 97 ∧
    stA.bot.safety_orders_filled < stA.bot.dca_config.max_safety_orders ∧
    (-3 : ℚ) < -(stA.bot.dca_config.price_deviation *
        stA.bot.dca_config.step_scale ^ stA.bot.safety_orders_filled) ∧
    ((safetyStep "t1" 97 (-3) stA).bot.safety_orders_filled
        = stA.bot.safety_orders_filled + 1 ∧
      (safetyStep "t1" 97 (-3) stA).bot.investment
        = stA.bot.investment + stA.bot.dca_config.safety_order *
            stA.bot.dca_config.volume_scale ^ stA.bot.safety_orders_filled ∧
      (safetyStep "t1" 97 (-3) stA).fin.reserved_capital
        = stA.fin.reserved_capital + stA.bot.dca_config.safety_order *
            stA.bot.dca_config.volume_scale ^ stA.bot.safety_orders_filled ∧
      (safetyStep "t1" 97 (-3) stA).bot.entry_price
        = (stA.bot.investment + stA.bot.dca_config.safety_order *
              stA.bot.dca_config.volume_scale ^ stA.bot.safety_orders_filled) /
            (((stA.bot.investment + stA.bot.dca_config.safety_order *
                  stA.bot.dca_config.volume_scale ^ stA.bot.safety_orders_filled) -
                stA.bot.dca_config.safety_order *
                  stA.bot.dca_config.volume_scale ^ stA.bot.safety_orders_filled) /
                stA.bot.entry_price +
              stA.bot.dca_config.safety_order *
                stA.bot.dca_config.volume_scale ^ stA.bot.safety_orders_filled /
                97)) :=
  ⟨rfl,
   by norm_num [stA, botA],
   by norm_num [stA, botA, pnlPercent],
   by norm_num [stA, botA, cfgA, DCAConfig.max_safety_orders],
   by norm_num [stA, botA, cfgA, DCAConfig.price_deviation, DCAConfig.step_scale],
   safety_order_fill_correct "t1" 97 (-3) stA rfl
     (by norm_num [stA, botA])
     (by norm_num [stA, botA, pnlPercent])
     (by norm_num [stA, botA, cfgA, DCAConfig.max_safety_orders])
     (by norm_num [stA, botA, cfgA, DCAConfig.price_deviation,
        DCAConfig.step_scale])⟩

/-- A looping bot used by the take-profit witness: `take_profit = 1`,
`loop_enabled = true`, `base_order = 20`. -/
def cfgB : DCAConfig :=
  { base_order? := some 20, take_profit? := some 1,
    loop_enabled? := some true }

/-- A bot under `cfgB`, opened at 100 with investment 25 (grown past its
base order by an earlier safety order). -/
def botB : Bot :=
  { symbol := "ETH-USDT", status := .running, entry_price := 100,
    current_price := 100, investment := 25, pnl := 0,
    dca_config := cfgB, safety_orders_filled := 1, start_time := "t0" }

/-- Engine state holding `botB`. -/
def stB : EngineState :=
  { bot := botB, fin := ⟨10000, 25, 0⟩, history := [], emitted := [] }

/-- Claim C2: when the step-1 `pnl_percent` reaches `take_profit`, the
take-profit stage of `calculate_dca_logic` realizes
`profit = investment * pnl_percent / 100` into `total_balance` and
`net_pnl`, subtracts `investment` from `reserved_capital`, and emits a
Take Profit entry with realized P&L equal to that profit; then with
`loop_enabled` the bot is reset to running with
`investment = dca_config.base_order` (never the grown value),
`entry_price` equal to the current market price,
`safety_orders_filled = 0`, a new `start_time`, `base_order` re-reserved
and a Loop Restart entry with 0 P&L prepended; without `loop_enabled`
the status becomes `completed`. -/
theorem take_profit_close_correct (now : String) (price pnl : ℚ)
    (st : EngineState)
    (htp : pnl ≥ st.bot.dca_config.take_profit) :
    (takeProfitStep now price pnl st).fin.total_balance
        = st.fin.total_balance + st.bot.investment * (pnl / 100) ∧
    (takeProfitStep now price pnl st).fin.net_pnl
        = st.fin.net_pnl + st.bot.investment * (pnl / 100) ∧
    (takeProfitStep now price pnl st).emitted
        = st.emitted ++ [⟨st.bot.symbol, now, .takeProfit, pnl,
            st.bot.investment * (pnl / 100)⟩] ∧
    (st.bot.dca_config.loop_enabled = true →
      (takeProfitStep now price pnl st).bot.status = BotStatus.running ∧
      (takeProfitStep now price pnl st).bot.investment
          = st.bot.dca_config.base_order ∧
      (takeProfitStep now price pnl st).bot.entry_price = price ∧
      (takeProfitStep now price pnl st).bot.safety_orders_filled = 0 ∧
      (takeProfitStep now price pnl st).bot.start_time = now ∧
      (takeProfitStep now price pnl st).fin.reserved_capital
          = st.fin.reserved_capital - st.bot.investment
              + st.bot.dca_config.base_order ∧
      (takeProfitStep now price pnl st).history
          = ⟨now, st.bot.symbol, .loopRestart, price, 0⟩
              :: ⟨now, st.bot.symbol, .takeProfit, price, pnl⟩
              :: st.history) ∧
    (st.bot.dca_config.loop_enabled = false →
      (takeProfitStep now price pnl st).bot.status = BotStatus.completed ∧
      (takeProfitStep now price pnl st).fin.reserved_capital
          = st.fin.reserved_capital - st.bot.investment ∧
      (takeProfitStep now price pnl st).history
          = ⟨now, st.bot.symbol, .takeProfit, price, pnl⟩ :: st.history) := by
  cases hl : st.bot.dca_config.loop_enabled <;>
    simp [takeProfitStep, htp, hl]

/-- Claim C2 witness: `botB` (investment grown to 25, base order 20,
`take_profit = 1`, looping) closes at price 102 with `pnl_percent = 2`
and restarts with investment reset to the base order 20. -/
theorem take_profit_close_correct_witness :
    (2 : ℚ) ≥ stB.bot.dca_config.take_profit ∧
    ((takeProfitStep "t1" 102 2 stB).fin.total_balance
        = stB.fin.total_balance + stB.bot.investment * (2 / 100) ∧
      (takeProfitStep "t1" 102 2 stB).fin.net_pnl
        = stB.fin.net_pnl + stB.bot.investment * (2 / 100) ∧
      (takeProfitStep "t1" 102 2 stB).emitted
        = stB.emitted ++ [⟨stB.bot.symbol, "t1", .takeProfit, 2,
            stB.bot.investment * (2 / 100)⟩] ∧
      (stB.bot.dca_config.loop_enabled = true →
        (takeProfitStep "t1" 102 2 stB).bot.status = BotStatus.running ∧
        (takeProfitStep "t1" 102 2 stB).bot.investment
            = stB.bot.dca_config.base_order ∧
        (takeProfitStep "t1" 102 2 stB).bot.entry_price = 102 ∧
        (takeProfitStep "t1" 102 2 stB).bot.safety_orders_filled = 0 ∧
        (takeProfitStep "t1" 102 2 stB).bot.start_time = "t1" ∧
        (takeProfitStep "t1" 102 2 stB).fin.reserved_capital
            = stB.fin.reserved_capital - stB.bot.investment
                + stB.bot.dca_config.base_order ∧
        (takeProfitStep "t1" 102 2 stB).history
            = ⟨"t1", stB.bot.symbol, .loopRestart, 102, 0⟩
                :: ⟨"t1", stB.bot.symbol, .takeProfit, 102, 2⟩
                :: stB.history) ∧
      (stB.bot.dca_config.loop_enabled = false →
        (takeProfitStep "t1" 102 2 stB).bot.status = BotStatus.completed ∧
        (takeProfitStep "t1" 102 2 stB).fin.reserved_capital
            = stB.fin.reserved_capital - stB.bot.investment ∧
        (takeProfitStep "t1" 102 2 stB).history
            = ⟨"t1", stB.bot.symbol, .takeProfit, 102, 2⟩
                :: stB.history)) :=
  ⟨by norm_num [stB, botB, cfgB, DCAConfig.take_profit],
   take_profit_close_correct "t1" 102 2 stB
     (by norm_num [stB, botB, cfgB, DCAConfig.take_profit])⟩

/-- A configuration whose take-profit target is negative and whose
stop-loss is enabled, so that one invocation can satisfy both the
take-profit and the stop-loss threshold. -/
def cfgC3 : DCAConfig :=
  { take_profit? := some (-10), stop_loss_enabled? := some true,
    stop_loss? := some 5, loop_enabled? := some false,
    max_safety_orders? := some 0 }

/-- A running bot under `cfgC3`, opened at 100 with investment 20. -/
def botC3 : Bot :=
  { symbol := "BTC-USDT", status := .running, entry_price := 100,
    current_price := 100, investment := 20, pnl := 0,
    dca_config := cfgC3, safety_orders_filled := 0, start_time := "t0" }

/-- Engine state holding `botC3`. -/
def stC3 : EngineState :=
  { bot := botC3, fin := ⟨10000, 20, 0⟩, history := [], emitted := [] }

/-- `stC3` after step 1 of an invocation at price 92 (pnl −8%, rounded
pnl and current price stored on the bot). -/
def st1C3 : EngineState :=
  { bot := { botC3 with pnl := -8, current_price := 92 },
    fin := ⟨10000, 20, 0⟩, history := [], emitted := [] }

/-- Claim C3 counterexample: the stop-loss stage of
`calculate_dca_logic` does not test the bot's status.  Under `cfgC3`
(take-profit target −10, stop-loss 5) an invocation at price 92
(pnl −8%) closes the bot as `completed` in the take-profit step and
then also stop-loss-closes it in the stop-loss step of the same
invocation: the final status is `stopped_loss` and both a Take Profit
and a Stop Loss entry are emitted, each realizing −8/5. -/
theorem stop_loss_ignores_status_counterexample :
    pnlPercent 100 92 = -8 ∧
    (takeProfitStep "t1" 92 (-8) (safetyStep "t1" 92 (-8) st1C3)).bot.status
      = BotStatus.completed ∧
    (calculate_dca_logic "t1" 92 stC3).bot.status = BotStatus.stopped_loss ∧
    (calculate_dca_logic "t1" 92 stC3).emitted
      = [⟨"BTC-USDT", "t1", .takeProfit, -8, -8/5⟩,
         ⟨"BTC-USDT", "t1", .stopLoss, -8, -8/5⟩] := by
  norm_num [calculate_dca_logic, safetyStep, takeProfitStep, stopLossStep,
    stC3, st1C3, botC3, cfgC3, pnlPercent, round2, ratFloor, trimHistory,
    DCAConfig.price_deviation, DCAConfig.step_scale, DCAConfig.safety_order,
    DCAConfig.volume_scale, DCAConfig.max_safety_orders, DCAConfig.take_profit,
    DCAConfig.stop_loss_enabled, DCAConfig.stop_loss, DCAConfig.loop_enabled,
    DCAConfig.base_order]

/-- Claim C3 amended: the stop-loss stage of `calculate_dca_logic` runs
whenever `stop_loss_enabled` is set — the bot's status after the
take-profit step is not checked — and when `pnl_percent <= -stop_loss`
it realizes `loss = investment * pnl_percent / 100` into
`total_balance` and `net_pnl`, subtracts `investment` from
`reserved_capital`, sets the status to `stopped_loss` and emits a Stop
Loss entry; so a bot that closed as `completed` in step 3 of the same
invocation can also stop-loss-close in step 4 (when
`take_profit <= pnl_percent <= -stop_loss`). -/
theorem stop_loss_close_correct (now : String) (price pnl : ℚ)
    (st : EngineState)
    (hen : st.bot.dca_config.stop_loss_enabled = true)
    (hle : pnl ≤ -st.bot.dca_config.stop_loss) :
    (stopLossStep now price pnl st).bot.status = BotStatus.stopped_loss ∧
    (stopLossStep now price pnl st).fin.total_balance
        = st.fin.total_balance + st.bot.investment * (pnl / 100) ∧
    (stopLossStep now price pnl st).fin.net_pnl
        = st.fin.net_pnl + st.bot.investment * (pnl / 100) ∧
    (stopLossStep now price pnl st).fin.reserved_capital
        = st.fin.reserved_capital - st.bot.investment ∧
    (stopLossStep now price pnl st).history
        = ⟨now, st.bot.symbol, .stopLoss, price, pnl⟩ :: st.history ∧
    (stopLossStep now price pnl st).emitted
        = st.emitted ++ [⟨st.bot.symbol, now, .stopLoss, pnl,
            st.bot.investment * (pnl / 100)⟩] := by
  simp [stopLossStep, hen, hle]

/-- `stC3` after its take-profit step would have closed it: a bot whose
status is already `completed`, used to show the stop-loss step applies
to it regardless. -/
def stC3done : EngineState :=
  { bot := { botC3 with status := .completed, pnl := -8, current_price := 92 },
    fin := ⟨9994, 0, -8/5⟩, history := [], emitted := [] }

/-- Claim C3 amended witness: the stop-loss step applied at pnl −8% to
a bot whose status is already `completed` still stop-loss-closes it. -/
theorem stop_loss_close_correct_witness :
    stC3done.bot.dca_config.stop_loss_enabled = true ∧
    (-8 : ℚ) ≤ -stC3done.bot.dca_config.stop_loss ∧
    ((stopLossStep "t1" 92 (-8) stC3done).bot.status
        = BotStatus.stopped_loss ∧
      (stopLossStep "t1" 92 (-8) stC3done).fin.total_balance
        = stC3done.fin.total_balance + stC3done.bot.investment * (-8 / 100) ∧
      (stopLossStep "t1" 92 (-8) stC3done).fin.net_pnl
        = stC3done.fin.net_pnl + stC3done.bot.investment * (-8 / 100) ∧
      (stopLossStep "t1" 92 (-8) stC3done).fin.reserved_capital
        = stC3done.fin.reserved_capital - stC3done.bot.investment ∧
      (stopLossStep "t1" 92 (-8) stC3done).history
        = ⟨"t1", stC3done.bot.symbol, .stopLoss, 92, -8⟩
            :: stC3done.history ∧
      (stopLossStep "t1" 92 (-8) stC3done).emitted
        = stC3done.emitted ++ [⟨stC3done.bot.symbol, "t1", .stopLoss, -8,
            stC3done.bot.investment * (-8 / 100)⟩]) :=
  ⟨by norm_num [stC3done, botC3, cfgC3, DCAConfig.stop_loss_enabled],
   by norm_num [stC3done, botC3, cfgC3, DCAConfig.stop_loss],
   stop_loss_close_correct "t1" 92 (-8) stC3done
     (by norm_num [stC3done, botC3, cfgC3, DCAConfig.stop_loss_enabled])
     (by norm_num [stC3done, botC3, cfgC3, DCAConfig.stop_loss])⟩

/-- No engine stage ever changes the bot's `dca_config`. -/
lemma dca_config_safetyStep (now : String) (price pnl : ℚ)
    (st : EngineState) :
    (safetyStep now price pnl st).bot.dca_config = st.bot.dca_config := by
  simp only [safetyStep]
  split <;> rfl

/-- The take-profit stage preserves the bot's `dca_config`. -/
lemma dca_config_takeProfitStep (now : String) (price pnl : ℚ)
    (st : EngineState) :
    (takeProfitStep now price pnl st).bot.dca_config = st.bot.dca_config := by
  simp only [takeProfitStep]
  split
  · split <;> rfl
  · rfl

/-- The stop-loss stage preserves the bot's `dca_config`. -/
lemma dca_config_stopLossStep (now : String) (price pnl : ℚ)
    (st : EngineState) :
    (stopLossStep now price pnl st).bot.dca_config = st.bot.dca_config := by
  simp only [stopLossStep]
  split <;> rfl

/-- The safety stage keeps `safety_orders_filled` within the configured
maximum: it increments only under `safety_orders_filled < max`. -/
lemma so_safetyStep_le (now : String) (price pnl : ℚ) (st : EngineState)
    (h : st.bot.safety_orders_filled
        ≤ st.bot.dca_config.max_safety_orders) :
    (safetyStep now price pnl st).bot.safety_orders_filled
      ≤ st.bot.dca_config.max_safety_orders := by
  simp only [safetyStep]
  split
  · next hc => simpa using hc.1
  · simpa using h

/-- The safety stage increments the counter by at most one. -/
lemma so_safetyStep_le_succ (now : String) (price pnl : ℚ)
    (st : EngineState) :
    (safetyStep now price pnl st).bot.safety_orders_filled
      ≤ st.bot.safety_orders_filled + 1 := by
  simp only [safetyStep]
  split <;> simp

/-- The take-profit stage never raises the counter (a loop restart
resets it to 0). -/
lemma so_takeProfitStep_le (now : String) (price pnl : ℚ)
    (st : EngineState) :
    (takeProfitStep now price pnl st).bot.safety_orders_filled
      ≤ st.bot.safety_orders_filled := by
  simp only [takeProfitStep]
  split
  · split <;> simp
  · simp

/-- The stop-loss stage leaves the counter unchanged. -/
lemma so_stopLossStep_eq (now : String) (price pnl : ℚ)
    (st : EngineState) :
    (stopLossStep now price pnl st).bot.safety_orders_filled
      = st.bot.safety_orders_filled := by
  simp only [stopLossStep]
  split <;> rfl

/-- A full engine invocation preserves
`safety_orders_filled ≤ max_safety_orders`. -/
lemma so_calculate_le (now : String) (price : ℚ) (st : EngineState)
    (h : st.bot.safety_orders_filled
        ≤ st.bot.dca_config.max_safety_orders) :
    (calculate_dca_logic now price st).bot.safety_orders_filled
      ≤ (calculate_dca_logic now price st).bot.dca_config.max_safety_orders := by
  simp only [calculate_dca_logic]
  rw [so_stopLossStep_eq, dca_config_stopLossStep, dca_config_takeProfitStep,
    dca_config_safetyStep]
  exact le_trans (so_takeProfitStep_le _ _ _ _) (so_safetyStep_le _ _ _ _ h)

/-- A full engine invocation increments the counter by at most one. -/
lemma so_calculate_le_succ (now : String) (price : ℚ) (st : EngineState) :
    (calculate_dca_logic now price st).bot.safety_orders_filled
      ≤ st.bot.safety_orders_filled + 1 := by
  simp only [calculate_dca_logic]
  rw [so_stopLossStep_eq]
  exact le_trans (so_takeProfitStep_le _ _ _ _) (so_safetyStep_le_succ _ _ _ _)

/-- Claim C4: across any sequence of engine invocations, a bot whose
`safety_orders_filled` is within its `max_safety_orders` stays within
it — a safety order fires only while the counter is below the maximum —
and moreover every single invocation raises the counter by at most
one. -/
theorem safety_orders_never_exceed_max (ticks : List (String × ℚ))
    (st : EngineState)
    (h : st.bot.safety_orders_filled
        ≤ st.bot.dca_config.max_safety_orders) :
    (runTicks ticks st).bot.safety_orders_filled
      ≤ (runTicks ticks st).bot.dca_config.max_safety_orders ∧
    ∀ (now : String) (price : ℚ) (s : EngineState),
      (calculate_dca_logic now price s).bot.safety_orders_filled
        ≤ s.bot.safety_orders_filled + 1 := by
  constructor
  · induction ticks generalizing st with
    | nil => exact h
    | cons t ts ih => exact ih _ (so_calculate_le t.1 t.2 st h)
  · intro now price s
    exact so_calculate_le_succ now price s

/-- Claim C4 witness: one tick at price 97 on `stA`
(`max_safety_orders = 1`). -/
theorem safety_orders_never_exceed_max_witness :
    stA.bot.safety_orders_filled ≤ stA.bot.dca_config.max_safety_orders ∧
    ((runTicks [("t1", 97)] stA).bot.safety_orders_filled
        ≤ (runTicks [("t1", 97)] stA).bot.dca_config.max_safety_orders ∧
      ∀ (now : String) (price : ℚ) (s : EngineState),
        (calculate_dca_logic now price s).bot.safety_orders_filled
          ≤ s.bot.safety_orders_filled + 1) :=
  ⟨by norm_num [stA, botA, cfgA, DCAConfig.max_safety_orders],
   safety_orders_never_exceed_max [("t1", 97)] stA
     (by norm_num [stA, botA, cfgA, DCAConfig.max_safety_orders])⟩

/-- A configuration under which one invocation both fills a safety
order and reaches the (negative) take-profit target. -/
def cfgC5 : DCAConfig :=
  { take_profit? := some (-15), price_deviation? := some 2,
    step_scale? := some 1, safety_order? := some 40,
    volume_scale? := some 1 }

/-- A running bot under `cfgC5`, opened at 100 with investment 20. -/
def botC5 : Bot :=
  { symbol := "BTC-USDT", status := .running, entry_price := 100,
    current_price := 100, investment := 20, pnl := 0,
    dca_config := cfgC5, safety_orders_filled := 0, start_time := "t0" }

/-- Engine state holding `botC5`. -/
def stC5 : EngineState :=
  { bot := botC5, fin := ⟨10000, 20, 0⟩, history := [], emitted := [] }

/-- Claim C5 counterexample: at price 90 (pnl −10%) the `stC5` bot
fills a safety order (entry price becomes 2700/29 ≈ 93.1) and closes
for take-profit in the same invocation, but the realized profit is
`60 * (−10)/100 = −6` — computed from the step-1 `pnl_percent` of the
*pre*-safety-order entry price 100 — so `total_balance` becomes 9994,
whereas evaluating the same formula against the post-safety-order entry
price would give 9998. -/
theorem take_profit_uses_pre_safety_pnl_counterexample :
    (calculate_dca_logic "t1" 90 stC5).bot.safety_orders_filled = 1 ∧
    (calculate_dca_logic "t1" 90 stC5).bot.status = BotStatus.completed ∧
    (calculate_dca_logic "t1" 90 stC5).bot.entry_price = 2700/29 ∧
    (calculate_dca_logic "t1" 90 stC5).fin.total_balance = 9994 ∧
    stC5.fin.total_balance
        + (calculate_dca_logic "t1" 90 stC5).bot.investment *
            (pnlPercent (calculate_dca_logic "t1" 90 stC5).bot.entry_price 90
              / 100)
      = 9998 ∧
    (9994 : ℚ) ≠ 9998 := by
  norm_num [calculate_dca_logic, safetyStep, takeProfitStep, stopLossStep,
    stC5, botC5, cfgC5, pnlPercent, round2, ratFloor, trimHistory,
    DCAConfig.price_deviation, DCAConfig.step_scale, DCAConfig.safety_order,
    DCAConfig.volume_scale, DCAConfig.max_safety_orders, DCAConfig.take_profit,
    DCAConfig.stop_loss_enabled, DCAConfig.stop_loss, DCAConfig.loop_enabled,
    DCAConfig.base_order]

/-- Claim C5 amended: a bot can both fill a safety order and close for
take-profit within one invocation (this requires
`take_profit ≤ pnl_percent < -required_drop`, so a take-profit target
at or below the negated required drop); in that case the take-profit
step sees the post-safety-order *investment*, but its condition and the
realized profit use the single `pnl_percent` computed in step 1 from
the pre-safety-order entry price: the realized profit is
`(investment + so_volume) * pnl_percent / 100`. -/
theorem take_profit_after_safety_order (now : String) (price pnl : ℚ)
    (st : EngineState)
    (hpnl : pnl = pnlPercent st.bot.entry_price price)
    (hk : st.bot.safety_orders_filled < st.bot.dca_config.max_safety_orders)
    (hdrop : pnl < -(st.bot.dca_config.price_deviation *
        st.bot.dca_config.step_scale ^ st.bot.safety_orders_filled))
    (htp : pnl ≥ st.bot.dca_config.take_profit) :
    (takeProfitStep now price pnl (safetyStep now price pnl st)).fin.total_balance
        = st.fin.total_balance +
            (st.bot.investment + st.bot.dca_config.safety_order *
                st.bot.dca_config.volume_scale ^ st.bot.safety_orders_filled) *
              (pnl / 100) ∧
    (takeProfitStep now price pnl (safetyStep now price pnl st)).emitted
        = st.emitted ++
            [⟨st.bot.symbol, now, .dcaBuy (st.bot.safety_orders_filled + 1),
                pnl, 0⟩,
             ⟨st.bot.symbol, now, .takeProfit, pnl,
                (st.bot.investment + st.bot.dca_config.safety_order *
                    st.bot.dca_config.volume_scale ^
                      st.bot.safety_orders_filled) * (pnl / 100)⟩] := by
  cases hl : st.bot.dca_config.loop_enabled <;>
    simp [safetyStep, takeProfitStep, hk, hdrop, htp, hl]

/-- Claim C5 amended witness: the `stC5` scenario at price 90. -/
theorem take_profit_after_safety_order_witness :
    (-10 : ℚ) = pnlPercent stC5.bot.entry_price 90 ∧
    stC5.bot.safety_orders_filled < stC5.bot.dca_config.max_safety_orders ∧
    (-10 : ℚ) < -(stC5.bot.dca_config.price_deviation *
        stC5.bot.dca_config.step_scale ^ stC5.bot.safety_orders_filled) ∧
    (-10 : ℚ) ≥ stC5.bot.dca_config.take_profit ∧
    ((takeProfitStep "t1" 90 (-10)
          (safetyStep "t1" 90 (-10) stC5)).fin.total_balance
        = stC5.fin.total_balance +
            (stC5.bot.investment + stC5.bot.dca_config.safety_order *
                stC5.bot.dca_config.volume_scale ^
                  stC5.bot.safety_orders_filled) * (-10 / 100) ∧
      (takeProfitStep "t1" 90 (-10)
          (safetyStep "t1" 90 (-10) stC5)).emitted
        = stC5.emitted ++
            [⟨stC5.bot.symbol, "t1",
                .dcaBuy (stC5.bot.safety_orders_filled + 1), -10, 0⟩,
             ⟨stC5.bot.symbol, "t1", .takeProfit, -10,
                (stC5.bot.investment + stC5.bot.dca_config.safety_order *
                    stC5.bot.dca_config.volume_scale ^
                      stC5.bot.safety_orders_filled) * (-10 / 100)⟩]) :=
  ⟨by norm_num [stC5, botC5, pnlPercent],
   by norm_num [stC5, botC5, cfgC5, DCAConfig.max_safety_orders],
   by norm_num [stC5, botC5, cfgC5, DCAConfig.price_deviation,
      DCAConfig.step_scale],
   by norm_num [stC5, botC5, cfgC5, DCAConfig.take_profit],
   take_profit_after_safety_order "t1" 90 (-10) stC5
     (by norm_num [stC5, botC5, pnlPercent])
     (by norm_num [stC5, botC5, cfgC5, DCAConfig.max_safety_orders])
     (by norm_num [stC5, botC5, cfgC5, DCAConfig.price_deviation,
        DCAConfig.step_scale])
     (by norm_num [stC5, botC5, cfgC5, DCAConfig.take_profit])⟩

/-- An in-memory history entry used to fill the history to its cap. -/
def fillEntry : MemEntry := ⟨"t0", "BTC-USDT", .dcaBuy 1, 100, 0⟩

/-- A config that closes for take-profit at 1% and never fills safety
orders. -/
def cfgC6 : DCAConfig :=
  { take_profit? := some 1, max_safety_orders? := some 0 }

/-- A running bot under `cfgC6`, opened at 100 with investment 20. -/
def botC6 : Bot :=
  { symbol := "BTC-USDT", status := .running, entry_price := 100,
    current_price := 100, investment := 20, pnl := 0,
    dca_config := cfgC6, safety_orders_filled := 0, start_time := "t0" }

/-- Engine state holding `botC6` with the in-memory history already at
the 50-entry cap. -/
def stC6 : EngineState :=
  { bot := botC6, fin := ⟨10000, 20, 0⟩,
    history := List.replicate 50 fillEntry, emitted := [] }

/-- Claim C6 counterexample: only the safety-order insert trims the
in-memory history.  A take-profit close at price 102 on `stC6` (whose
history already holds 50 entries) prepends a Take Profit entry without
dropping the oldest one, leaving 51 entries. -/
theorem history_cap_counterexample :
    stC6.history.length = 50 ∧
    (calculate_dca_logic "t1" 102 stC6).history.length = 51 ∧
    ¬ (calculate_dca_logic "t1" 102 stC6).history.length ≤ 50 := by
  norm_num [calculate_dca_logic, safetyStep, takeProfitStep, stopLossStep,
    stC6, botC6, cfgC6, fillEntry, pnlPercent, round2, ratFloor, trimHistory,
    DCAConfig.price_deviation, DCAConfig.step_scale, DCAConfig.safety_order,
    DCAConfig.volume_scale, DCAConfig.max_safety_orders, DCAConfig.take_profit,
    DCAConfig.stop_loss_enabled, DCAConfig.stop_loss, DCAConfig.loop_enabled,
    DCAConfig.base_order]

/-- Claim C6 amended: only the safety-order fill maintains the 50-entry
cap — it prepends the newest entry and then drops the oldest entry
exactly when the cap would be exceeded, so it keeps the history at ≤ 50
entries whenever it held ≤ 50 before; the take-profit, loop-restart and
stop-loss prepends do not trim, and can push the history past 50. -/
theorem safety_order_history_trimmed (now : String) (price pnl : ℚ)
    (st : EngineState)
    (hk : st.bot.safety_orders_filled < st.bot.dca_config.max_safety_orders)
    (hdrop : pnl < -(st.bot.dca_config.price_deviation *
        st.bot.dca_config.step_scale ^ st.bot.safety_orders_filled))
    (h50 : st.history.length ≤ 50) :
    (safetyStep now price pnl st).history
        = trimHistory
            (⟨now, st.bot.symbol, .dcaBuy (st.bot.safety_orders_filled + 1),
                price, pnl⟩ :: st.history) ∧
    (safetyStep now price pnl st).history.length ≤ 50 ∧
    (st.history.length < 50 →
      (safetyStep now price pnl st).history
        = ⟨now, st.bot.symbol, .dcaBuy (st.bot.safety_orders_filled + 1),
            price, pnl⟩ :: st.history) ∧
    (st.history.length = 50 →
      (safetyStep now price pnl st).history
        = (⟨now, st.bot.symbol, .dcaBuy (st.bot.safety_orders_filled + 1),
            price, pnl⟩ :: st.history).dropLast) := by
  have hcons : (safetyStep now price pnl st).history
      = trimHistory
          (⟨now, st.bot.symbol, .dcaBuy (st.bot.safety_orders_filled + 1),
              price, pnl⟩ :: st.history) := by
    simp [safetyStep, hk, hdrop]
  refine ⟨hcons, ?_, ?_, ?_⟩
  · rw [hcons]
    simp only [trimHistory]
    split
    · simp only [List.length_dropLast, List.length_cons]
      omega
    · next hle =>
      simp only [List.length_cons] at hle ⊢
      omega
  · intro hlt
    rw [hcons]
    simp only [trimHistory]
    rw [if_neg]
    simp only [List.length_cons]
    omega
  · intro heq
    rw [hcons]
    simp only [trimHistory]
    rw [if_pos]
    simp only [List.length_cons]
    omega

/-- Claim C6 amended witness: the `stA` safety-order fill at price 97
with an empty prior history. -/
theorem safety_order_history_trimmed_witness :
    stA.bot.safety_orders_filled < stA.bot.dca_config.max_safety_orders ∧
    (-3 : ℚ) < -(stA.bot.dca_config.price_deviation *
        stA.bot.dca_config.step_scale ^ stA.bot.safety_orders_filled) ∧
    stA.history.length ≤ 50 ∧
    ((safetyStep "t1" 97 (-3) stA).history
        = trimHistory
            (⟨"t1", stA.bot.symbol, .dcaBuy (stA.bot.safety_orders_filled + 1),
                97, -3⟩ :: stA.history) ∧
      (safetyStep "t1" 97 (-3) stA).history.length ≤ 50 ∧
      (stA.history.length < 50 →
        (safetyStep "t1" 97 (-3) stA).history
          = ⟨"t1", stA.bot.symbol, .dcaBuy (stA.bot.safety_orders_filled + 1),
              97, -3⟩ :: stA.history) ∧
      (stA.history.length = 50 →
        (safetyStep "t1" 97 (-3) stA).history
          = (⟨"t1", stA.bot.symbol, .dcaBuy (stA.bot.safety_orders_filled + 1),
              97, -3⟩ :: stA.history).dropLast)) :=
  ⟨by norm_num [stA, botA, cfgA, DCAConfig.max_safety_orders],
   by norm_num [stA, botA, cfgA, DCAConfig.price_deviation,
      DCAConfig.step_scale],
   by norm_num [stA],
   safety_order_history_trimmed "t1" 97 (-3) stA
     (by norm_num [stA, botA, cfgA, DCAConfig.max_safety_orders])
     (by norm_num [stA, botA, cfgA, DCAConfig.price_deviation,
        DCAConfig.step_scale])
     (by norm_num [stA])⟩

/-- Claim C7: a `start_strategy` or `create_bot` request whose symbol
already has a `running` bot in the workspace is rejected with a
structured human-readable error (HTTP 400) and the workspace — bots,
financials, reserved capital, history — is returned unchanged. -/
theorem duplicate_running_bot_rejected (now : String) (fetch : Option ℚ)
    (cache : String → Option ℚ) (ws : Workspace)
    (sreq : StartReq) (creq : CreateReq) (s : String) (b bc : Bot)
    (hs : sreq.symbol? = some s) (hne : s ≠ "") (hdash : s ≠ "---")
    (hlook : ws.bots.lookup s = some b)
    (hrun : b.status = BotStatus.running)
    (hlookc : ws.bots.lookup (normalizeSymbol (creq.symbol?.getD ""))
        = some bc)
    (hrunc : bc.status = BotStatus.running) :
    start_strategy now fetch cache ws sreq
      = (.err ("Bot for " ++ s ++ " is already active") 400, ws) ∧
    create_bot now fetch cache ws creq
      = (.err "Bot already running" 400, ws) := by
  constructor
  · simp [start_strategy, hs, hne, hdash, runningAt, hlook, hrun]
  · simp [create_bot, runningAt, hlookc, hrunc]

/-- A workspace already holding the running bot `botA` for
`"BTC-USDT"`. -/
def wsA : Workspace :=
  { bots := [("BTC-USDT", botA)], fin := ⟨10000, 20, 0⟩, history := [] }

/-- Claim C7 witness: opening `"BTC-USDT"` (and creating `"btc/usdt"`,
which normalizes to the same symbol) on `wsA` is rejected and leaves
the workspace unchanged. -/
theorem duplicate_running_bot_rejected_witness :
    (StartReq.mk (some "BTC-USDT") (some 50)).symbol? = some "BTC-USDT" ∧
    ("BTC-USDT" : String) ≠ "" ∧
    ("BTC-USDT" : String) ≠ "---" ∧
    wsA.bots.lookup "BTC-USDT" = some botA ∧
    botA.status = BotStatus.running ∧
    wsA.bots.lookup
        (normalizeSymbol ((CreateReq.mk (some "btc/usdt") (some 100)
            {}).symbol?.getD ""))
      = some botA ∧
    (start_strategy "t1" none (fun _ => none) wsA
          (StartReq.mk (some "BTC-USDT") (some 50))
        = (.err ("Bot for " ++ "BTC-USDT" ++ " is already active") 400, wsA) ∧
      create_bot "t1" none (fun _ => none) wsA
          (CreateReq.mk (some "btc/usdt") (some 100) {})
        = (.err "Bot already running" 400, wsA)) :=
  ⟨rfl, by decide, by decide, by simp [wsA], rfl,
   by
     have hnorm : normalizeSymbol "btc/usdt" = "BTC-USDT" := by decide
     simp [hnorm, wsA],
   duplicate_running_bot_rejected "t1" none (fun _ => none) wsA
     (StartReq.mk (some "BTC-USDT") (some 50))
     (CreateReq.mk (some "btc/usdt") (some 100) {})
     "BTC-USDT" botA botA rfl (by decide) (by decide)
     (by simp [wsA]) rfl
     (by
       have hnorm : normalizeSymbol "btc/usdt" = "BTC-USDT" := by decide
       simp [hnorm, wsA]) rfl⟩

/-- Claim C10: a `start_strategy` request with a valid symbol and no
running bot for it never fails for lack of a price: when the provider
fetch raised (`fetch = none`) and the symbol is absent from the market
cache, the bot is created with `entry_price = current_price = 50000`
and `reserved_capital` grows by the requested amount. -/
theorem start_strategy_price_fallback (now : String)
    (cache : String → Option ℚ) (ws : Workspace) (req : StartReq)
    (s : String)
    (hs : req.symbol? = some s) (hne : s ≠ "") (hdash : s ≠ "---")
    (hnorun : runningAt ws.bots s = false)
    (hcache : cache s = none) :
    (start_strategy now none cache ws req).1
      = ApiResult.ok (some "Vortex Strategy Activated") 200 ∧
    (start_strategy now none cache ws req).2.bots.lookup s
      = some
          { symbol := s, status := .running, entry_price := 50000,
            current_price := 50000, investment := req.amount?.getD 20,
            pnl := 0, dca_config := startConfig (req.amount?.getD 20),
            safety_orders_filled := 0, start_time := now } ∧
    (start_strategy now none cache ws req).2.fin.reserved_capital
      = ws.fin.reserved_capital + req.amount?.getD 20 := by
  refine ⟨?_, ?_, ?_⟩ <;>
    simp [start_strategy, hs, hne, hdash, hnorun, hcache, setBot]

/-- An empty workspace used by the price-fallback witness. -/
def wsE : Workspace := { bots := [], fin := ⟨10000, 0, 0⟩, history := [] }

/-- Claim C10 witness: opening `"SOL-USDT"` for 30 on an empty
workspace with the provider down and an empty cache yields a bot priced
at the 50000 fallback and reserves 30. -/
theorem start_strategy_price_fallback_witness :
    (StartReq.mk (some "SOL-USDT") (some 30)).symbol? = some "SOL-USDT" ∧
    ("SOL-USDT" : String) ≠ "" ∧
    ("SOL-USDT" : String) ≠ "---" ∧
    runningAt wsE.bots "SOL-USDT" = false ∧
    (fun (_ : String) => (none : Option ℚ)) "SOL-USDT" = none ∧
    ((start_strategy "t1" none (fun _ => none) wsE
          (StartReq.mk (some "SOL-USDT") (some 30))).1
        = ApiResult.ok (some "Vortex Strategy Activated") 200 ∧
      (start_strategy "t1" none (fun _ => none) wsE
          (StartReq.mk (some "SOL-USDT") (some 30))).2.bots.lookup "SOL-USDT"
        = some
            { symbol := "SOL-USDT", status := .running, entry_price := 50000,
              current_price := 50000,
              investment := (StartReq.mk (some "SOL-USDT")
                  (some 30)).amount?.getD 20,
              pnl := 0,
              dca_config := startConfig ((StartReq.mk (some "SOL-USDT")
                  (some 30)).amount?.getD 20),
              safety_orders_filled := 0, start_time := "t1" } ∧
      (start_strategy "t1" none (fun _ => none) wsE
          (StartReq.mk (some "SOL-USDT") (some 30))).2.fin.reserved_capital
        = wsE.fin.reserved_capital
            + (StartReq.mk (some "SOL-USDT") (some 30)).amount?.getD 20) :=
  ⟨rfl, by decide, by decide, by simp [wsE, runningAt], rfl,
   start_strategy_price_fallback "t1" (fun _ => none) wsE
     (StartReq.mk (some "SOL-USDT") (some 30)) "SOL-USDT"
     rfl (by decide) (by decide) (by simp [wsE, runningAt]) rfl⟩

/-- One `save_trade_history` call leaves at most 1000 entries on
file. -/
lemma save_trade_history_length_le (h : List DurEntry) (e : DurEntry) :
    (save_trade_history h e).length ≤ 1000 := by
  simp only [save_trade_history]
  split
  · simp only [List.length_drop]
    omega
  · next hle =>
    simp only [not_lt, List.length_append, List.length_singleton] at hle
    simp only [List.length_append, List.length_singleton]
    omega

/-- One `save_trade_history` call keeps a suffix of the appended log —
trimming drops only the oldest entries. -/
lemma save_trade_history_suffix (h : List DurEntry) (e : DurEntry) :
    save_trade_history h e <:+ h ++ [e] := by
  simp only [save_trade_history]
  split
  · exact List.drop_suffix _ _
  · exact List.suffix_refl _

/-- Appending a common tail preserves the list-suffix relation. -/
lemma isSuffix_append_right {α : Type} {a b : List α} (c : List α)
    (h : a <:+ b) : a ++ c <:+ b ++ c := by
  obtain ⟨t, rfl⟩ := h
  exact ⟨t, (List.append_assoc t a c).symm⟩

/-- Any nonempty run of `save_trade_history` appends ends with at most
1000 entries on file. -/
lemma foldl_save_length (es : List DurEntry) (init : List DurEntry)
    (hne : es ≠ []) :
    (es.foldl save_trade_history init).length ≤ 1000 := by
  induction es generalizing init with
  | nil => exact absurd rfl hne
  | cons e es ih =>
    match es with
    | [] => simpa using save_trade_history_length_le init e
    | f :: fs => exact ih (save_trade_history init e) (List.cons_ne_nil f fs)

/-- Any run of `save_trade_history` appends leaves a suffix of the full
append sequence: the file holds the most recent entries. -/
lemma foldl_save_suffix (es : List DurEntry) (init : List DurEntry) :
    es.foldl save_trade_history init <:+ init ++ es := by
  induction es generalizing init with
  | nil => simp
  | cons e es ih =>
    have h2 : save_trade_history init e ++ es <:+ (init ++ [e]) ++ es :=
      isSuffix_append_right es (save_trade_history_suffix init e)
    have h3 : (init ++ [e]) ++ es = init ++ (e :: es) := by simp
    exact h3 ▸ ((ih (save_trade_history init e)).trans h2)

/-- Claim C8: after any (nonzero) number of `save_trade_history`
appends, the durable trade-history log holds at most 1000 entries, and
what it holds is a suffix — the most recent entries — of the full
append sequence. -/
theorem durable_history_capped (init es : List DurEntry) (hne : es ≠ []) :
    (es.foldl save_trade_history init).length ≤ 1000 ∧
    es.foldl save_trade_history init <:+ init ++ es :=
  ⟨foldl_save_length es init hne, foldl_save_suffix es init⟩

/-- A durable entry used by the history-cap witness. -/
def durEntryW : DurEntry := ⟨"BTC-USDT", "t0", .takeProfit, 2, 1/2⟩

/-- Claim C8 witness: a single append to an empty file. -/
theorem durable_history_capped_witness :
    ([durEntryW] : List DurEntry) ≠ [] ∧
    (([durEntryW] : List DurEntry).foldl save_trade_history []).length
        ≤ 1000 ∧
    ([durEntryW] : List DurEntry).foldl save_trade_history []
        <:+ ([] : List DurEntry) ++ [durEntryW] :=
  ⟨by simp,
   (durable_history_capped [] [durEntryW] (by simp)).1,
   (durable_history_capped [] [durEntryW] (by simp)).2⟩

/-- Claim C9 counterexample: the durable `DCA Buy #1` entry emitted by
the `stA` safety-order fill at price 97 records `pnl_percent = -3`
(the bot's current unrealized pnl percent), not 0; only its `pnl_usd`
field is 0. -/
theorem dca_buy_entry_pnl_counterexample :
    (calculate_dca_logic "t1" 97 stA).emitted
      = [⟨"BTC-USDT", "t1", .dcaBuy 1, -3, 0⟩] ∧
    ((-3 : ℚ) ≠ 0) := by
  norm_num [calculate_dca_logic, safetyStep, takeProfitStep, stopLossStep,
    stA, botA, cfgA, pnlPercent, round2, ratFloor, trimHistory,
    DCAConfig.price_deviation, DCAConfig.step_scale, DCAConfig.safety_order,
    DCAConfig.volume_scale, DCAConfig.max_safety_orders, DCAConfig.take_profit,
    DCAConfig.stop_loss_enabled, DCAConfig.stop_loss, DCAConfig.loop_enabled,
    DCAConfig.base_order]

/-- Claim C9 amended: every safety-order fill emits a durable
`DCA Buy #(k+1)` entry whose realized currency P&L (`pnl_usd`) is 0 —
the position is still open — while its `pnl_percent` field records the
step-1 `pnl_percent` of the invocation (a value below the negated
required drop, hence nonzero), not 0. -/
theorem dca_buy_entry_records_current_pnl (now : String) (price pnl : ℚ)
    (st : EngineState)
    (hk : st.bot.safety_orders_filled < st.bot.dca_config.max_safety_orders)
    (hdrop : pnl < -(st.bot.dca_config.price_deviation *
        st.bot.dca_config.step_scale ^ st.bot.safety_orders_filled)) :
    (safetyStep now price pnl st).emitted
      = st.emitted ++
          [⟨st.bot.symbol, now, .dcaBuy (st.bot.safety_orders_filled + 1),
              pnl, 0⟩] := by
  simp [safetyStep, hk, hdrop]

/-- Claim C9 amended witness: the `stA` safety-order fill at price
97. -/
theorem dca_buy_entry_records_current_pnl_witness :
    stA.bot.safety_orders_filled < stA.bot.dca_config.max_safety_orders ∧
    (-3 : ℚ) < -(stA.bot.dca_config.price_deviation *
        stA.bot.dca_config.step_scale ^ stA.bot.safety_orders_filled) ∧
    (safetyStep "t1" 97 (-3) stA).emitted
      = stA.emitted ++
          [⟨stA.bot.symbol, "t1", .dcaBuy (stA.bot.safety_orders_filled + 1),
              -3, 0⟩] :=
  ⟨by norm_num [stA, botA, cfgA, DCAConfig.max_safety_orders],
   by norm_num [stA, botA, cfgA, DCAConfig.price_deviation,
      DCAConfig.step_scale],
   dca_buy_entry_records_current_pnl "t1" 97 (-3) stA
     (by norm_num [stA, botA, cfgA, DCAConfig.max_safety_orders])
     (by norm_num [stA, botA, cfgA, DCAConfig.price_deviation,
        DCAConfig.step_scale])⟩

end Vortex
